import Mathlib

/-!
Shallow embedding of the `blinks-starter` repository: three near-identical
HTTP handlers for a single-instruction SOL transfer Blink.

Variants embedded (matching the three source documents):
* `postPlain`   — `src/app/api/transfer-sol/route.ts` POST: inline parameter
  extraction, no explicit validation guard.
* `postGuard`   — `src/app/api/transfer-sol/route.tsx` POST (both documents in
  that file share this handler): inline extraction followed by the guard
  `if (!receiver || !amount) return 400`.
* `postHelper`  — the unnamed source file's POST: validation factored into
  `verifyTransferInstruction`, every failure mapped to 500 by the catch.

JavaScript machine-level behaviour that the handlers rely on is embedded
explicitly: `Number(...)` coercion (`JsNum`, `parseJsNumber`, `jsNumber`),
base58 public-key parsing (`newPublicKey?`, mirroring web3.js `new PublicKey`
which accepts exactly the base58 strings decoding to 32 bytes), JS truthiness
of numbers and of objects, and the eager u64 lamports encoding performed by
`SystemProgram.transfer` (`encodeLamports?`), which throws for NaN, infinite,
negative, fractional or out-of-range values.  Exceptions are embedded as
`Option`/`none`; the per-request external world is an `Env` carrying the
result of `connection.getLatestBlockhash()`.
-/

namespace TransferSol

/-- A JavaScript number as the handlers observe it: NaN, the two infinities,
or a finite value (finite doubles are embedded as exact rationals). -/
inductive JsNum where
  | nan : JsNum
  | posInf : JsNum
  | negInf : JsNum
  | fin (q : ℚ) : JsNum
deriving DecidableEq

/-- JS truthiness of a number: `0`, `-0` and `NaN` are falsy, everything else
truthy (used by the `!amount` guard in `route.tsx`). -/
def JsNum.truthy : JsNum → Bool
  | .nan => false
  | .posInf => true
  | .negInf => true
  | .fin q => decide (q ≠ 0)

/-- JS multiplication on the embedded numbers (`amount * LAMPORTS_PER_SOL`). -/
def JsNum.mul : JsNum → JsNum → JsNum
  | .nan, _ => .nan
  | _, .nan => .nan
  | .fin a, .fin b => .fin (a * b)
  | .posInf, .posInf => .posInf
  | .posInf, .negInf => .negInf
  | .negInf, .posInf => .negInf
  | .negInf, .negInf => .posInf
  | .posInf, .fin b => if 0 < b then .posInf else if b < 0 then .negInf else .nan
  | .fin a, .posInf => if 0 < a then .posInf else if a < 0 then .negInf else .nan
  | .negInf, .fin b => if 0 < b then .negInf else if b < 0 then .posInf else .nan
  | .fin a, .negInf => if 0 < a then .negInf else if a < 0 then .posInf else .nan

/-- Numeric value of a list of decimal digit characters. -/
def digitsVal (cs : List Char) : ℕ :=
  cs.foldl (fun a c => 10 * a + (c.toNat - 48)) 0

/-- Split a character list into its leading run of decimal digits and the
rest. -/
def spanDigits (cs : List Char) : List Char × List Char :=
  (cs.takeWhile Char.isDigit, cs.dropWhile Char.isDigit)

/-- Exponent part of a JS decimal literal (the characters after `e`/`E`):
optional sign then one or more digits, consuming the whole remainder. -/
def parseExponent (cs : List Char) : Option ℤ :=
  match cs with
  | '+' :: r => if r ≠ [] ∧ r.all Char.isDigit then some (digitsVal r : ℤ) else none
  | '-' :: r => if r ≠ [] ∧ r.all Char.isDigit then some (-(digitsVal r : ℤ)) else none
  | r => if r ≠ [] ∧ r.all Char.isDigit then some (digitsVal r : ℤ) else none

/-- Unsigned JS decimal literal: digits, optional fraction, optional
exponent; the whole input must be consumed.  Returns the exact value. -/
def parseUnsignedDec (cs : List Char) : Option ℚ :=
  let (ip, r1) := spanDigits cs
  match r1 with
  | '.' :: r2 =>
    let (fp, r3) := spanDigits r2
    if ip = [] ∧ fp = [] then none
    else
      let m : ℚ := (digitsVal ip : ℚ) + (digitsVal fp : ℚ) / (10 : ℚ) ^ fp.length
      match r3 with
      | [] => some m
      | 'e' :: r4 => (parseExponent r4).map (fun e => m * (10 : ℚ) ^ e)
      | 'E' :: r4 => (parseExponent r4).map (fun e => m * (10 : ℚ) ^ e)
      | _ => none
  | [] => if ip = [] then none else some (digitsVal ip : ℚ)
  | 'e' :: r4 =>
    if ip = [] then none
    else (parseExponent r4).map (fun e => (digitsVal ip : ℚ) * (10 : ℚ) ^ e)
  | 'E' :: r4 =>
    if ip = [] then none
    else (parseExponent r4).map (fun e => (digitsVal ip : ℚ) * (10 : ℚ) ^ e)
  | _ => none

/-- Strip leading and trailing whitespace (the trimming `Number(string)`
performs before parsing). -/
def trimList (cs : List Char) : List Char :=
  ((cs.dropWhile Char.isWhitespace).reverse.dropWhile Char.isWhitespace).reverse

/-- JS `Number(string)` coercion on the string forms the handlers receive:
whitespace is trimmed, the empty string is `0`, signed `Infinity` and signed
decimal literals are recognised, anything else is `NaN`.  (The JS hex/octal
/binary literal forms are not exercised by any handler input modelled here.) -/
def parseJsNumber (s : String) : JsNum :=
  let cs := trimList s.toList
  match cs with
  | [] => .fin 0
  | _ =>
    let sb : Bool × List Char :=
      match cs with
      | '-' :: r => (true, r)
      | '+' :: r => (false, r)
      | _ => (false, cs)
    if sb.2 = "Infinity".toList then (if sb.1 then .negInf else .posInf)
    else
      match parseUnsignedDec sb.2 with
      | some q => .fin (if sb.1 then -q else q)
      | none => .nan

/-- `Number(url.searchParams.get(...))`: a missing query parameter is `null`,
and JS `Number(null) = 0`. -/
def jsNumber : Option String → JsNum
  | none => .fin 0
  | some s => parseJsNumber s

/-- The base58 alphabet used by Solana public keys. -/
def base58Alphabet : List Char :=
  "123456789ABCDEFGHJKLMNPQRSTUVWXYZabcdefghijkmnopqrstuvwxyz".toList

/-- Value of one base58 digit, `none` for a character outside the alphabet. -/
def base58DigitVal (c : Char) : Option ℕ :=
  base58Alphabet.indexOf? c

/-- Big-endian value of a base58 string, `none` if any character is invalid. -/
def base58Value? (cs : List Char) : Option ℕ :=
  cs.foldl (fun acc c => acc.bind fun a => (base58DigitVal c).map fun d => 58 * a + d)
    (some 0)

/-- Number of leading `'1'` characters (each encodes one leading zero byte). -/
def base58LeadingOnes (cs : List Char) : ℕ :=
  (cs.takeWhile (fun c => c = '1')).length

/-- Fuel-driven byte length of a natural number (base-256 digit count). -/
def byteLengthAux : ℕ → ℕ → ℕ
  | 0, _ => 0
  | fuel + 1, n => if n = 0 then 0 else byteLengthAux fuel (n / 256) + 1

/-- Minimal number of bytes needed to store `n` big-endian (`0` needs none). -/
def byteLength (n : ℕ) : ℕ := byteLengthAux n n

/-- A Solana public key, identified by the 256-bit value of its 32 decoded
bytes. -/
structure PubKey where
  value : ℕ
deriving DecidableEq

/-- JS objects are always truthy, so a constructed `PublicKey` passes the
`!receiver` test unconditionally. -/
def PubKey.jsTruthy (_ : PubKey) : Bool := true

/-- `new PublicKey(s)` on a string: base58-decode and require exactly 32
bytes, throwing (`none`) otherwise — the web3.js validation. -/
def newPublicKey? (s : String) : Option PubKey :=
  match base58Value? s.toList with
  | none => none
  | some v =>
    if base58LeadingOnes s.toList + byteLength v = 32 then some ⟨v⟩ else none

/-- `new PublicKey(x)` where `x` may be a missing (`null`/`undefined`) value,
on which the constructor throws. -/
def parsePublicKey? : Option String → Option PubKey
  | none => none
  | some s => newPublicKey? s

/-- `LAMPORTS_PER_SOL`, the fixed scale factor of the target ledger. -/
def lamportsPerSol : JsNum := .fin 1000000000

/-- The single transfer instruction produced by `SystemProgram.transfer`. -/
structure TransferInstruction where
  fromPubkey : PubKey
  toPubkey : PubKey
  lamports : ℕ
deriving DecidableEq

/-- The eager u64 layout encoding of the `lamports` field performed inside
`SystemProgram.transfer`: succeeds exactly for finite, integral, nonnegative
values that fit the 64-bit field; NaN, infinities, negative and fractional
values make the buffer write throw. -/
def encodeLamports? : JsNum → Option ℕ
  | .fin q =>
    if q.den = 1 ∧ 0 ≤ q.num ∧ q.num < 18446744073709551616 then some q.num.toNat
    else none
  | _ => none

/-- `SystemProgram.transfer({fromPubkey, toPubkey, lamports})`. -/
def systemProgramTransfer? (fromPubkey toPubkey : PubKey) (lamports : JsNum) :
    Option TransferInstruction :=
  (encodeLamports? lamports).map fun l => ⟨fromPubkey, toPubkey, l⟩

/-- The compiled v0 transaction message: fee payer, freshness anchor, and the
instruction list. -/
structure TxMessage where
  payerKey : PubKey
  recentBlockhash : String
  instructions : List TransferInstruction
deriving DecidableEq

/-- The unsigned versioned transaction container wrapping the message. -/
structure VersionedTx where
  message : TxMessage
deriving DecidableEq

/-- Per-request external world: the outcome of
`connection.getLatestBlockhash()` (`none` embeds a network failure). -/
structure Env where
  blockhash : Option String

/-- Construction steps of `prepareTransaction`, in the order the source
performs them (used to state ordering and reachability properties). -/
inductive BuildEvent where
  | buildTransferInstruction : BuildEvent
  | getLatestBlockhash : BuildEvent
  | compileMessage : BuildEvent
  | wrapVersionedTransaction : BuildEvent
deriving DecidableEq

/-- `prepareTransaction` (identical in all three source documents): build the
transfer instruction from `amount * LAMPORTS_PER_SOL`, then fetch the latest
blockhash, then compile the v0 message naming the payer as fee payer, then
wrap it in a `VersionedTransaction`.  The second component records the steps
performed, in order, before the first failure. -/
def prepareTransaction (env : Env) (payer receiver : PubKey) (amount : JsNum) :
    Option VersionedTx × List BuildEvent :=
  match systemProgramTransfer? payer receiver (amount.mul lamportsPerSol) with
  | none => (none, [.buildTransferInstruction])
  | some instruction =>
    match env.blockhash with
    | none => (none, [.buildTransferInstruction, .getLatestBlockhash])
    | some blockhash =>
      (some ⟨⟨payer, blockhash, [instruction]⟩⟩,
       [.buildTransferInstruction, .getLatestBlockhash, .compileMessage,
        .wrapVersionedTransaction])

/-- The JSON body of a POST request; `account` is absent when the field is
missing/undefined. -/
structure PostBody where
  account : Option String
deriving DecidableEq

/-- A POST request as the handlers see it: the two query parameters (absent
= `null` from `searchParams.get`) and the JSON body (`none` embeds a body
whose JSON parse, `req.json()`, throws). -/
structure PostRequest where
  receiver : Option String
  amount : Option String
  body : Option PostBody
deriving DecidableEq

/-- Response bodies the handlers produce. -/
inductive RespBody where
  | empty : RespBody
  | errorJson (msg : String) : RespBody
  | transaction (tx : VersionedTx) : RespBody
  | str (s : String) : RespBody
deriving DecidableEq

/-- An HTTP response: status code and body. -/
structure HttpResponse where
  status : ℕ
  body : RespBody
deriving DecidableEq

/-- The uniform catch-all failure response of every variant. -/
def internalServerError : HttpResponse := ⟨500, .errorJson "Internal server error"⟩

/-- POST of `route.ts`: parse receiver, coerce amount, parse body and payer,
then build; any throw is caught and mapped to the generic 500.  There is no
validation guard.  Also returns the construction trace (empty when
`prepareTransaction` is never reached). -/
def postPlain (env : Env) (req : PostRequest) : HttpResponse × List BuildEvent :=
  match parsePublicKey? req.receiver with
  | none => (internalServerError, [])
  | some receiver =>
    match req.body with
    | none => (internalServerError, [])
    | some body =>
      match parsePublicKey? body.account with
      | none => (internalServerError, [])
      | some payer =>
        match prepareTransaction env payer receiver (jsNumber req.amount) with
        | (none, evs) => (internalServerError, evs)
        | (some tx, evs) => (⟨200, .transaction tx⟩, evs)

/-- POST of `route.tsx` (both documents): like `postPlain` but with the
inline guard `if (!receiver || !amount) return 400` evaluated after all
parses succeed and before construction. -/
def postGuard (env : Env) (req : PostRequest) : HttpResponse × List BuildEvent :=
  match parsePublicKey? req.receiver with
  | none => (internalServerError, [])
  | some receiver =>
    match req.body with
    | none => (internalServerError, [])
    | some body =>
      match parsePublicKey? body.account with
      | none => (internalServerError, [])
      | some payer =>
        if !receiver.jsTruthy || !(jsNumber req.amount).truthy then
          (⟨400, .empty⟩, [])
        else
          match prepareTransaction env payer receiver (jsNumber req.amount) with
          | (none, evs) => (internalServerError, evs)
          | (some tx, evs) => (⟨200, .transaction tx⟩, evs)

/-- The validated parameters resolved by `verifyTransferInstruction`. -/
structure TransferInstructionParams where
  receiver : PubKey
  amount : JsNum
  payer : PubKey
deriving DecidableEq

/-- `verifyTransferInstruction` of the helper variant: parse the JSON body,
require a non-empty receiver string, a non-empty amount string and a
non-empty `account` field (JS `!s` is true for both a missing value and the
empty string), then construct the two keys; the amount is only coerced with
`Number(...)`, never numerically checked.  Any throw rejects (`none`). -/
def verifyTransferInstruction (req : PostRequest) : Option TransferInstructionParams :=
  match req.body with
  | none => none
  | some body =>
    match req.receiver with
    | none => none
    | some receiverString =>
      if receiverString = "" then none
      else
        match req.amount with
        | none => none
        | some amountString =>
          if amountString = "" then none
          else
            match body.account with
            | none => none
            | some accountString =>
              if accountString = "" then none
              else
                match newPublicKey? receiverString with
                | none => none
                | some receiver =>
                  match newPublicKey? accountString with
                  | none => none
                  | some payer =>
                    some ⟨receiver, parseJsNumber amountString, payer⟩

/-- POST of the helper variant: validate via `verifyTransferInstruction`,
then build; every failure (validation rejection included) is caught by the
single try/catch and mapped to the generic 500. -/
def postHelper (env : Env) (req : PostRequest) : HttpResponse × List BuildEvent :=
  match verifyTransferInstruction req with
  | none => (internalServerError, [])
  | some params =>
    match prepareTransaction env params.payer params.receiver params.amount with
    | (none, evs) => (internalServerError, evs)
    | (some tx, evs) => (⟨200, .transaction tx⟩, evs)

/-- A request URL, by its components. -/
structure Url where
  scheme : String
  host : String
  path : String
deriving DecidableEq

/-- Serialised form of a URL (`URL.prototype.toString`). -/
def Url.render (u : Url) : String := u.scheme ++ "://" ++ u.host ++ u.path

/-- `new URL(absolutePath, base)`: a path-absolute reference keeps the base's
scheme and host and replaces the path. -/
def resolveUrl (path : String) (base : Url) : Url :=
  ⟨base.scheme, base.host, path⟩

/-- One entry of the `parameters` array of the metadata document. -/
structure ActionParameter where
  type : String
  label : String
  name : String
  required : Bool
deriving DecidableEq

/-- One entry of the `links.actions` array of the metadata document. -/
structure LinkedAction where
  type : String
  label : String
  href : String
  parameters : List ActionParameter
deriving DecidableEq

/-- The `ActionGetResponse` metadata document; the icon is kept as the URL it
stringifies from. -/
structure ActionGetResponse where
  type : String
  icon : Url
  label : String
  title : String
  description : String
  actions : List LinkedAction
deriving DecidableEq

/-- GET of `route.ts`, the unnamed file, and the second `route.tsx` document:
the icon URL is derived from the request's own URL. -/
def getMetadata (reqUrl : Url) : ActionGetResponse :=
  { type := "action"
    icon := resolveUrl "/transfer-sol.png" reqUrl
    label := "Send SOL"
    title := "Send SOL with a Blink"
    description := "This Blink demonstrates how to send SOL on the Solana blockchain. It is a part of the official Blink Starter Guides by Dialect Labs.  \n\nLearn how to build this Blink: https://dialect.to/docs/guides/transfer-sol"
    actions :=
      [⟨"transaction", "Send SOL",
        "/api/transfer-sol?receiver={receiver}&amount={amount}",
        [⟨"text", "Recipient Public Key", "receiver", true⟩,
         ⟨"number", "Amount", "amount", true⟩]⟩] }

/-- GET of the first `route.tsx` document: the icon URL is the hardcoded
`http://localhost:3000/transfer-sol.png`, ignoring the request URL. -/
def getMetadataLocal (_reqUrl : Url) : ActionGetResponse :=
  { type := "action"
    icon := ⟨"http", "localhost:3000", "/transfer-sol.png"⟩
    label := "Send SOL"
    title := "Send SOL to a friend"
    description := "Send SOL to a friend using their public key."
    actions :=
      [⟨"transaction", "Send SOL",
        "/api/transfer-sol?receiver={receiver}&amount={amount}",
        [⟨"text", "Recipient Public Key", "receiver", true⟩,
         ⟨"number", "Amount", "amount", true⟩]⟩] }

/-- JSON string escaping for the characters occurring in the documents. -/
def jsonEscape (s : String) : String :=
  String.mk (s.toList.foldr
    (fun c acc =>
      match c with
      | '"' => '\\' :: '"' :: acc
      | '\\' => '\\' :: '\\' :: acc
      | '\n' => '\\' :: 'n' :: acc
      | c => c :: acc) [])

/-- A JSON string literal. -/
def jsonStr (s : String) : String := "\"" ++ jsonEscape s ++ "\""

/-- `JSON.stringify` of one parameter object, field order as in the source. -/
def serializeParameter (p : ActionParameter) : String :=
  "\x7b\"type\":" ++ jsonStr p.type ++ ",\"label\":" ++ jsonStr p.label ++
    ",\"name\":" ++ jsonStr p.name ++ ",\"required\":" ++
    (if p.required then "true" else "false") ++ "\x7d"

/-- `JSON.stringify` of one `links.actions` entry. -/
def serializeAction (a : LinkedAction) : String :=
  "\x7b\"type\":" ++ jsonStr a.type ++ ",\"label\":" ++ jsonStr a.label ++
    ",\"href\":" ++ jsonStr a.href ++ ",\"parameters\":[" ++
    String.intercalate "," (a.parameters.map serializeParameter) ++ "]\x7d"

/-- `JSON.stringify` of the whole metadata document, field order as in the
source object literal. -/
def serializeGetResponse (r : ActionGetResponse) : String :=
  "\x7b\"type\":" ++ jsonStr r.type ++ ",\"icon\":" ++ jsonStr r.icon.render ++
    ",\"label\":" ++ jsonStr r.label ++ ",\"title\":" ++ jsonStr r.title ++
    ",\"description\":" ++ jsonStr r.description ++
    ",\"links\":\x7b\"actions\":[" ++
    String.intercalate "," (r.actions.map serializeAction) ++ "]\x7d\x7d"

/-- The derived-icon GET endpoint: status 200 with the serialised document. -/
def getEndpoint (reqUrl : Url) : HttpResponse :=
  ⟨200, .str (serializeGetResponse (getMetadata reqUrl))⟩

/-- The hardcoded-icon GET endpoint of the first `route.tsx` document. -/
def getEndpointLocal (reqUrl : Url) : HttpResponse :=
  ⟨200, .str (serializeGetResponse (getMetadataLocal reqUrl))⟩

end TransferSol

namespace TransferSol

/-- The construction trace always starts with the instruction build: it is
the first thing `prepareTransaction` does. -/
theorem prepare_trace_head (env : Env) (payer receiver : PubKey) (amount : JsNum) :
    (prepareTransaction env payer receiver amount).2.head? =
      some .buildTransferInstruction := by
  unfold prepareTransaction
  split
  · rfl
  · split <;> rfl

/-- Building with a NaN amount fails at the instruction encoding step. -/
theorem prepare_nan (env : Env) (payer receiver : PubKey) :
    prepareTransaction env payer receiver .nan = (none, [.buildTransferInstruction]) := rfl

/-- `newPublicKey?` rejects the empty string (zero decoded bytes). -/
theorem newPublicKey?_empty : newPublicKey? "" = none := by decide

/-- A number is JS-falsy exactly when it is `0` or `NaN`. -/
theorem truthy_eq_false_iff (a : JsNum) :
    a.truthy = false ↔ a = .fin 0 ∨ a = .nan := by
  cases a <;> simp [JsNum.truthy]

/-- The plain variant only ever answers 200 or the generic 500. -/
theorem postPlain_shape (env : Env) (req : PostRequest) :
    (postPlain env req).1.status = 200 ∨ (postPlain env req).1 = internalServerError := by
  unfold postPlain
  split
  · exact Or.inr rfl
  split
  · exact Or.inr rfl
  split
  · exact Or.inr rfl
  split
  · exact Or.inr rfl
  · exact Or.inl rfl

/-- The guard variant only ever answers 200, the generic 500, or the empty
400 of the inline guard. -/
theorem postGuard_shape (env : Env) (req : PostRequest) :
    (postGuard env req).1.status = 200 ∨ (postGuard env req).1 = internalServerError ∨
      (postGuard env req).1 = ⟨400, .empty⟩ := by
  unfold postGuard
  split
  · exact Or.inr (Or.inl rfl)
  split
  · exact Or.inr (Or.inl rfl)
  split
  · exact Or.inr (Or.inl rfl)
  split
  · exact Or.inr (Or.inr rfl)
  split
  · exact Or.inr (Or.inl rfl)
  · exact Or.inl rfl

/-- The helper variant only ever answers 200 or the generic 500. -/
theorem postHelper_shape (env : Env) (req : PostRequest) :
    (postHelper env req).1.status = 200 ∨ (postHelper env req).1 = internalServerError := by
  unfold postHelper
  split
  · exact Or.inr rfl
  split
  · exact Or.inr rfl
  · exact Or.inl rfl

/-- A missing amount makes `verifyTransferInstruction` reject. -/
theorem verify_missing_amount (r : Option String) (b : Option PostBody) :
    verifyTransferInstruction ⟨r, none, b⟩ = none := by
  rcases b with _ | body
  · rfl
  rcases r with _ | rs
  · rfl
  simp [verifyTransferInstruction]

/-- Successful resolution of `verifyTransferInstruction`: all three fields
present and non-empty, both keys parse, and the amount is only coerced. -/
theorem verify_success (rs as acc : String) (receiver payer : PubKey)
    (hrs : rs ≠ "") (has : as ≠ "") (hacc : acc ≠ "")
    (hr : newPublicKey? rs = some receiver) (hp : newPublicKey? acc = some payer) :
    verifyTransferInstruction ⟨some rs, some as, some ⟨some acc⟩⟩ =
      some ⟨receiver, parseJsNumber as, payer⟩ := by
  simp [verifyTransferInstruction, hrs, has, hacc, hr, hp]

/-- Inversion of a successful `verifyTransferInstruction`. -/
theorem verify_inv (req : PostRequest) (params : TransferInstructionParams)
    (h : verifyTransferInstruction req = some params) :
    ∃ rs as acc,
      req.receiver = some rs ∧ req.amount = some as ∧
      (∃ body, req.body = some body ∧ body.account = some acc) ∧
      newPublicKey? rs = some params.receiver ∧
      newPublicKey? acc = some params.payer ∧
      params.amount = parseJsNumber as := by
  rcases req with ⟨r, a, b⟩
  rcases b with _ | body
  · cases h
  rcases r with _ | rs
  · cases h
  rcases a with _ | as
  · rw [verify_missing_amount] at h; cases h
  rcases body with ⟨acc0⟩
  rcases acc0 with _ | acc
  · simp [verifyTransferInstruction] at h
  by_cases hrs : rs = ""
  · subst hrs; simp [verifyTransferInstruction] at h
  by_cases has : as = ""
  · subst has; simp [verifyTransferInstruction, hrs] at h
  by_cases hacc : acc = ""
  · subst hacc; simp [verifyTransferInstruction, hrs, has] at h
  rcases hkr : newPublicKey? rs with _ | receiver
  · simp [verifyTransferInstruction, hrs, has, hacc, hkr] at h
  rcases hkp : newPublicKey? acc with _ | payer
  · simp [verifyTransferInstruction, hrs, has, hacc, hkr, hkp] at h
  rw [verify_success rs as acc receiver payer hrs has hacc hkr hkp] at h
  obtain rfl := Option.some.inj h
  exact ⟨rs, as, acc, rfl, rfl, ⟨⟨some acc⟩, rfl, rfl⟩, hkr, hkp, rfl⟩

/-- Behaviour of `postPlain` once receiver, body and payer parse. -/
theorem postPlain_parsed (env : Env) (rs acc : String) (amt : Option String)
    (receiver payer : PubKey)
    (hr : newPublicKey? rs = some receiver) (hp : newPublicKey? acc = some payer) :
    postPlain env ⟨some rs, amt, some ⟨some acc⟩⟩ =
      match prepareTransaction env payer receiver (jsNumber amt) with
      | (none, evs) => (internalServerError, evs)
      | (some tx, evs) => (⟨200, .transaction tx⟩, evs) := by
  simp [postPlain, parsePublicKey?, hr, hp]

/-- Behaviour of `postGuard` once receiver, body and payer parse. -/
theorem postGuard_parsed (env : Env) (rs acc : String) (amt : Option String)
    (receiver payer : PubKey)
    (hr : newPublicKey? rs = some receiver) (hp : newPublicKey? acc = some payer) :
    postGuard env ⟨some rs, amt, some ⟨some acc⟩⟩ =
      if !(jsNumber amt).truthy then (⟨400, .empty⟩, [])
      else
        match prepareTransaction env payer receiver (jsNumber amt) with
        | (none, evs) => (internalServerError, evs)
        | (some tx, evs) => (⟨200, .transaction tx⟩, evs) := by
  simp [postGuard, parsePublicKey?, hr, hp, PubKey.jsTruthy]

end TransferSol

namespace TransferSol

/-- C4: for every base URL, the metadata endpoint (in both GET variants)
returns a `links.actions` array of length exactly 1 whose single entry has
exactly two parameters, named `receiver` and `amount` in that order, both
marked required. -/
theorem c4_metadata_parameters (u : Url) :
    (getMetadata u).actions.length = 1 ∧
    ((getMetadata u).actions.map fun a =>
      a.parameters.map fun p => (p.name, p.required)) =
      [[("receiver", true), ("amount", true)]] ∧
    (getMetadataLocal u).actions.length = 1 ∧
    ((getMetadataLocal u).actions.map fun a =>
      a.parameters.map fun p => (p.name, p.required)) =
      [[("receiver", true), ("amount", true)]] :=
  ⟨rfl, rfl, rfl, rfl⟩

/-- C8 (counterexample): for the request URL `https://example.com/...`, the
hardcoded-icon GET variant answers with an icon whose host is
`localhost:3000`, not the request's own host. -/
theorem c8_counterexample :
    (getMetadataLocal ⟨"https", "example.com", "/api/transfer-sol"⟩).icon.host =
      "localhost:3000" ∧
    (⟨"https", "example.com", "/api/transfer-sol"⟩ : Url).host = "example.com" ∧
    ¬ (getMetadataLocal ⟨"https", "example.com", "/api/transfer-sol"⟩).icon.host =
        (⟨"https", "example.com", "/api/transfer-sol"⟩ : Url).host := by
  refine ⟨rfl, rfl, ?_⟩
  decide

/-- C8 (amended): the metadata endpoint is deterministic in every variant
(two calls with the same URL give byte-identical serialised bodies), and the
icon host matches the request's host in the derived-icon variants, while the
hardcoded variant always answers with host `localhost:3000`. -/
theorem c8_metadata_determinism (u : Url) :
    getEndpoint u = getEndpoint u ∧
    getEndpointLocal u = getEndpointLocal u ∧
    (getMetadata u).icon.host = u.host ∧
    (getMetadataLocal u).icon.host = "localhost:3000" :=
  ⟨rfl, rfl, rfl, rfl⟩

/-- C6 (counterexample): on a missing-amount request with valid keys, the
helper variant answers the generic 500, while an inline-guard variant — whose
validation is not separated into a helper — answers the empty-body 400: the
400 path lives in the inline variants, not the helper one. -/
theorem c6_counterexample :
    (postGuard ⟨some "blockhash"⟩
        ⟨some "11111111111111111111111111111111", none,
         some ⟨some "11111111111111111111111111111112"⟩⟩).1 = ⟨400, .empty⟩ ∧
    (postHelper ⟨some "blockhash"⟩
        ⟨some "11111111111111111111111111111111", none,
         some ⟨some "11111111111111111111111111111112"⟩⟩).1 = internalServerError := by
  constructor <;> decide

/-- C6 (amended): every failure response of the transaction-build endpoint is
either the status-500 JSON `error: Internal server error` or — exactly in the
variants with the inline guard, not the helper variant — the plain empty-body
status 400; equivalently, every response is a 200, that 500, or (guard
variants only) that 400. -/
theorem c6_failure_response_shapes (env : Env) (req : PostRequest) :
    ((postPlain env req).1.status = 200 ∨ (postPlain env req).1 = internalServerError) ∧
    ((postHelper env req).1.status = 200 ∨ (postHelper env req).1 = internalServerError) ∧
    ((postGuard env req).1.status = 200 ∨ (postGuard env req).1 = internalServerError ∨
      (postGuard env req).1 = ⟨400, .empty⟩) :=
  ⟨postPlain_shape env req, postHelper_shape env req, postGuard_shape env req⟩

/-- C3 (counterexample): on a concrete successful build, the construction
trace places the transfer-instruction build at index 0 and the blockhash
request at index 1 — the instruction is constructed before the recent block
reference is requested, not after as claimed. -/
theorem c3_counterexample :
    (prepareTransaction ⟨some "blockhash"⟩ ⟨1⟩ ⟨0⟩ (.fin 1)).2 =
      [.buildTransferInstruction, .getLatestBlockhash, .compileMessage,
       .wrapVersionedTransaction] ∧
    (prepareTransaction ⟨some "blockhash"⟩ ⟨1⟩ ⟨0⟩ (.fin 1)).2.indexOf
      .buildTransferInstruction = 0 ∧
    (prepareTransaction ⟨some "blockhash"⟩ ⟨1⟩ ⟨0⟩ (.fin 1)).2.indexOf
      .getLatestBlockhash = 1 := by
  have h : prepareTransaction ⟨some "blockhash"⟩ ⟨1⟩ ⟨0⟩ (.fin 1) =
      (some ⟨⟨⟨1⟩, "blockhash", [⟨⟨1⟩, ⟨0⟩, 1000000000⟩]⟩⟩,
       [.buildTransferInstruction, .getLatestBlockhash, .compileMessage,
        .wrapVersionedTransaction]) := by
    simp [prepareTransaction, systemProgramTransfer?, encodeLamports?, JsNum.mul,
      lamportsPerSol]
  rw [h]
  refine ⟨rfl, rfl, rfl⟩

/-- C3 (amended): once validated, the handler performs the construction steps
in this order: it constructs the single transfer instruction first, then
requests the recent block reference, then compiles the message and wraps it
in the versioned container; the trace can only be one of the three ordered
prefixes of that sequence. -/
theorem c3_construction_order (env : Env) (payer receiver : PubKey) (amount : JsNum) :
    (prepareTransaction env payer receiver amount).2 = [.buildTransferInstruction] ∨
    (prepareTransaction env payer receiver amount).2 =
      [.buildTransferInstruction, .getLatestBlockhash] ∨
    ((prepareTransaction env payer receiver amount).1.isSome = true ∧
      (prepareTransaction env payer receiver amount).2 =
        [.buildTransferInstruction, .getLatestBlockhash, .compileMessage,
         .wrapVersionedTransaction]) := by
  unfold prepareTransaction
  split
  · exact Or.inl rfl
  split
  · exact Or.inr (Or.inl rfl)
  · exact Or.inr (Or.inr ⟨rfl, rfl⟩)

/-- C2 (counterexample): in the plain variant, a POST request with valid
receiver and payer keys but no amount parameter at all is not rejected: the
missing amount coerces to 0 and the endpoint answers 200 with a zero-lamport
transaction. -/
theorem c2_counterexample :
    (postPlain ⟨some "blockhash"⟩
        ⟨some "11111111111111111111111111111111", none,
         some ⟨some "11111111111111111111111111111112"⟩⟩).1 =
      ⟨200, .transaction ⟨⟨⟨1⟩, "blockhash", [⟨⟨1⟩, ⟨0⟩, 0⟩]⟩⟩⟩ := by
  have h1 : parsePublicKey? (some "11111111111111111111111111111111") = some ⟨0⟩ := by
    decide
  have h2 : parsePublicKey? (some "11111111111111111111111111111112") = some ⟨1⟩ := by
    decide
  have h3 : prepareTransaction ⟨some "blockhash"⟩ ⟨1⟩ ⟨0⟩ (jsNumber none) =
      (some ⟨⟨⟨1⟩, "blockhash", [⟨⟨1⟩, ⟨0⟩, 0⟩]⟩⟩,
       [.buildTransferInstruction, .getLatestBlockhash, .compileMessage,
        .wrapVersionedTransaction]) := by
    simp [jsNumber, prepareTransaction, systemProgramTransfer?, encodeLamports?,
      JsNum.mul, lamportsPerSol]
  simp [postPlain, h1, h2, h3]

/-- C2 (amended): a missing amount parameter defeats a 200 only in the guard
and helper variants — the helper variant always answers the generic 500 and
the guard variant answers the 500 or the empty 400 — while the plain variant
(see the counterexample) coerces the missing amount to 0 and can answer 200. -/
theorem c2_missing_amount_by_variant (env : Env) (r : Option String) (b : Option PostBody) :
    (postHelper env ⟨r, none, b⟩).1 = internalServerError ∧
    ((postGuard env ⟨r, none, b⟩).1 = internalServerError ∨
      (postGuard env ⟨r, none, b⟩).1 = ⟨400, .empty⟩) := by
  constructor
  · simp [postHelper, verify_missing_amount]
  · unfold postGuard
    split
    · exact Or.inl rfl
    split
    · exact Or.inl rfl
    split
    · exact Or.inl rfl
    split
    · exact Or.inr rfl
    · rename_i hcond
      exfalso
      apply hcond
      simp [jsNumber, JsNum.truthy, PubKey.jsTruthy]

end TransferSol

namespace TransferSol

/-- C5: for every POST request whose amount query parameter is a non-numeric
string (one that coerces to NaN, such as "abc"), no variant answers 200: the
plain and helper variants fail inside instruction encoding and answer the
generic 500, and the guard variant answers its empty 400 (or the 500 when
another field already fails to parse). -/
theorem c5_non_numeric_amount (env : Env) (req : PostRequest) (s : String)
    (hs : req.amount = some s) (hnan : parseJsNumber s = .nan) :
    (postPlain env req).1 = internalServerError ∧
    ((postGuard env req).1 = internalServerError ∨
      (postGuard env req).1 = ⟨400, .empty⟩) ∧
    (postHelper env req).1 = internalServerError := by
  have hnum : jsNumber req.amount = .nan := by rw [hs]; exact hnan
  refine ⟨?_, ?_, ?_⟩
  · unfold postPlain
    split
    · rfl
    split
    · rfl
    split
    · rfl
    simp [hnum, prepare_nan]
  · unfold postGuard
    split
    · exact Or.inl rfl
    split
    · exact Or.inl rfl
    split
    · exact Or.inl rfl
    split
    · exact Or.inr rfl
    · rename_i hcond
      exfalso
      apply hcond
      simp [hnum, PubKey.jsTruthy, JsNum.truthy]
  · unfold postHelper
    split
    · rfl
    · rename_i params hv
      obtain ⟨rs, as, acc, _, has, _, _, _, hpa⟩ := verify_inv _ _ hv
      rw [hs] at has
      obtain rfl := Option.some.inj has
      have hpan : params.amount = JsNum.nan := by rw [hpa, hnan]
      simp [hpan, prepare_nan]

/-- C5 (witness): the concrete request with amount "abc" and valid keys. -/
theorem c5_witness :
    (postPlain ⟨some "blockhash"⟩
        ⟨some "11111111111111111111111111111111", some "abc",
         some ⟨some "11111111111111111111111111111112"⟩⟩).1 = internalServerError ∧
    ((postGuard ⟨some "blockhash"⟩
        ⟨some "11111111111111111111111111111111", some "abc",
         some ⟨some "11111111111111111111111111111112"⟩⟩).1 = internalServerError ∨
      (postGuard ⟨some "blockhash"⟩
        ⟨some "11111111111111111111111111111111", some "abc",
         some ⟨some "11111111111111111111111111111112"⟩⟩).1 = ⟨400, .empty⟩) ∧
    (postHelper ⟨some "blockhash"⟩
        ⟨some "11111111111111111111111111111111", some "abc",
         some ⟨some "11111111111111111111111111111112"⟩⟩).1 = internalServerError :=
  c5_non_numeric_amount ⟨some "blockhash"⟩
    ⟨some "11111111111111111111111111111111", some "abc",
     some ⟨some "11111111111111111111111111111112"⟩⟩ "abc" rfl (by decide)

/-- C7: whenever `prepareTransaction` succeeds on a finite amount q, the
produced transaction contains exactly one transfer instruction moving
`q * 1000000000` indivisible units from the payer to the receiver, and the
compiled message names the payer as fee payer. -/
theorem c7_lamports_scaling (env : Env) (payer receiver : PubKey) (q : ℚ)
    (tx : VersionedTx)
    (h : (prepareTransaction env payer receiver (.fin q)).1 = some tx) :
    tx.message.payerKey = payer ∧
    ∃ lamports : ℕ, tx.message.instructions = [⟨payer, receiver, lamports⟩] ∧
      (lamports : ℚ) = q * 1000000000 := by
  have hmul : JsNum.mul (.fin q) lamportsPerSol = .fin (q * 1000000000) := rfl
  rcases henc : systemProgramTransfer? payer receiver
      (JsNum.mul (.fin q) lamportsPerSol) with _ | instr
  · unfold prepareTransaction at h
    rw [henc] at h
    cases h
  · unfold prepareTransaction at h
    rw [henc] at h
    rcases hbh : env.blockhash with _ | bh
    · rw [hbh] at h
      cases h
    · rw [hbh] at h
      obtain rfl := Option.some.inj h
      rw [hmul] at henc
      simp only [systemProgramTransfer?, encodeLamports?] at henc
      split_ifs at henc with hcond
      · simp only [Option.map_some'] at henc
        obtain rfl := Option.some.inj henc.symm
        refine ⟨rfl, (q * 1000000000).num.toNat, rfl, ?_⟩
        obtain ⟨hden, hnn, _⟩ := hcond
        have h2 : (((q * 1000000000).num : ℤ) : ℚ) = q * 1000000000 := by
          have h3 := Rat.num_div_den (q * 1000000000)
          rw [hden] at h3
          simpa using h3
        rw [← h2]
        exact_mod_cast Int.toNat_of_nonneg hnn
      · simp at henc

end TransferSol

namespace TransferSol

/-- C7 (witness): a build with amount 2 yields one instruction of exactly
2000000000 lamports from payer to receiver, payer as fee payer. -/
theorem c7_witness :
    (VersionedTx.mk ⟨⟨1⟩, "blockhash",
        [⟨⟨1⟩, ⟨0⟩, 2000000000⟩]⟩).message.payerKey = ⟨1⟩ ∧
    ∃ lamports : ℕ,
      (VersionedTx.mk ⟨⟨1⟩, "blockhash",
          [⟨⟨1⟩, ⟨0⟩, 2000000000⟩]⟩).message.instructions =
        [⟨⟨1⟩, ⟨0⟩, lamports⟩] ∧ (lamports : ℚ) = 2 * 1000000000 := by
  have h : (prepareTransaction ⟨some "blockhash"⟩ ⟨1⟩ ⟨0⟩ (.fin 2)).1 =
      some ⟨⟨⟨1⟩, "blockhash", [⟨⟨1⟩, ⟨0⟩, 2000000000⟩]⟩⟩ := by
    have hfull : prepareTransaction ⟨some "blockhash"⟩ ⟨1⟩ ⟨0⟩ (.fin 2) =
        (some ⟨⟨⟨1⟩, "blockhash", [⟨⟨1⟩, ⟨0⟩, 2000000000⟩]⟩⟩,
         [.buildTransferInstruction, .getLatestBlockhash, .compileMessage,
          .wrapVersionedTransaction]) := by
      simp [prepareTransaction, systemProgramTransfer?, encodeLamports?, JsNum.mul,
        lamportsPerSol]
      norm_num
      rfl
    rw [hfull]
  exact c7_lamports_scaling ⟨some "blockhash"⟩ ⟨1⟩ ⟨0⟩ 2 _ h

/-- C9: in the guard variants, a constructed key object is always JS-truthy,
so the empty 400 is returned exactly when the receiver key, the JSON body and
the payer key all parse and the coerced amount is 0 or NaN; a missing or
malformed receiver always takes the generic 500 path, never the 400 one. -/
theorem c9_guard_analysis (env : Env) (req : PostRequest) :
    (∀ k : PubKey, k.jsTruthy = true) ∧
    ((postGuard env req).1 = ⟨400, .empty⟩ ↔
      (∃ receiver body payer,
        parsePublicKey? req.receiver = some receiver ∧ req.body = some body ∧
          parsePublicKey? body.account = some payer) ∧
      (jsNumber req.amount = .fin 0 ∨ jsNumber req.amount = .nan)) ∧
    (parsePublicKey? req.receiver = none → (postGuard env req).1 = internalServerError) := by
  refine ⟨fun k => rfl, ?_, ?_⟩
  · constructor
    · intro h400
      unfold postGuard at h400
      rcases hr : parsePublicKey? req.receiver with _ | receiver
      · simp only [hr] at h400
        exact absurd h400 (by simp [internalServerError])
      rcases hb : req.body with _ | body
      · simp only [hr, hb] at h400
        exact absurd h400 (by simp [internalServerError])
      rcases hp : parsePublicKey? body.account with _ | payer
      · simp only [hr, hb, hp] at h400
        exact absurd h400 (by simp [internalServerError])
      by_cases htr : (jsNumber req.amount).truthy = false
      · exact ⟨⟨receiver, body, payer, rfl, rfl, hp⟩, (truthy_eq_false_iff _).mp htr⟩
      · exfalso
        have htr2 : (jsNumber req.amount).truthy = true := by
          cases h2 : (jsNumber req.amount).truthy
          · exact absurd h2 htr
          · rfl
        rcases hpre : prepareTransaction env payer receiver (jsNumber req.amount) with
          ⟨otx, evs⟩
        cases otx <;>
          simp [hr, hb, hp, htr2, PubKey.jsTruthy, hpre, internalServerError] at h400
    · rintro ⟨⟨receiver, body, payer, hr, hb, hp⟩, hamt⟩
      have htr : (jsNumber req.amount).truthy = false := (truthy_eq_false_iff _).mpr hamt
      simp [postGuard, hr, hb, hp, htr]
  · intro hr
    simp [postGuard, hr]

/-- C9 (witness): a missing receiver takes the 500 path, and a zero amount
with valid keys takes the empty 400 path. -/
theorem c9_witness :
    (postGuard ⟨some "blockhash"⟩
        ⟨none, some "1", some ⟨some "11111111111111111111111111111112"⟩⟩).1 =
      internalServerError ∧
    (postGuard ⟨some "blockhash"⟩
        ⟨some "11111111111111111111111111111111", some "0",
         some ⟨some "11111111111111111111111111111112"⟩⟩).1 = ⟨400, .empty⟩ :=
  ⟨(c9_guard_analysis ⟨some "blockhash"⟩
      ⟨none, some "1", some ⟨some "11111111111111111111111111111112"⟩⟩).2.2 rfl,
   (c9_guard_analysis ⟨some "blockhash"⟩
      ⟨some "11111111111111111111111111111111", some "0",
       some ⟨some "11111111111111111111111111111112"⟩⟩).2.1.mpr
     ⟨⟨⟨0⟩, ⟨some "11111111111111111111111111111112"⟩, ⟨1⟩, by decide, rfl, by decide⟩,
      by decide⟩⟩

/-- C10: the helper checks only presence (non-empty receiver, amount and
account strings) and key parsability — no numeric check — so with any
non-empty amount string it resolves with `amount = Number(amountString)`
(possibly NaN) and that value is handed to instruction construction. -/
theorem c10_helper_no_numeric_check (env : Env) (rs as acc : String)
    (receiver payer : PubKey) (hne : as ≠ "")
    (hr : newPublicKey? rs = some receiver) (hp : newPublicKey? acc = some payer) :
    verifyTransferInstruction ⟨some rs, some as, some ⟨some acc⟩⟩ =
      some ⟨receiver, parseJsNumber as, payer⟩ ∧
    (postHelper env ⟨some rs, some as, some ⟨some acc⟩⟩).2 =
      (prepareTransaction env payer receiver (parseJsNumber as)).2 ∧
    (postHelper env ⟨some rs, some as, some ⟨some acc⟩⟩).2.head? =
      some .buildTransferInstruction := by
  have hrs : rs ≠ "" := by
    rintro rfl
    rw [newPublicKey?_empty] at hr
    cases hr
  have hacc : acc ≠ "" := by
    rintro rfl
    rw [newPublicKey?_empty] at hp
    cases hp
  have hv := verify_success rs as acc receiver payer hrs hne hacc hr hp
  have htrace : (postHelper env ⟨some rs, some as, some ⟨some acc⟩⟩).2 =
      (prepareTransaction env payer receiver (parseJsNumber as)).2 := by
    unfold postHelper
    rcases hpre : prepareTransaction env payer receiver (parseJsNumber as) with ⟨otx, evs⟩
    cases otx <;> simp [hv, hpre]
  refine ⟨hv, htrace, ?_⟩
  rw [htrace]
  exact prepare_trace_head env payer receiver (parseJsNumber as)

/-- C10 (witness): the concrete non-numeric amount "abc" resolves to NaN and
reaches instruction construction. -/
theorem c10_witness :
    verifyTransferInstruction
        ⟨some "11111111111111111111111111111111", some "abc",
         some ⟨some "11111111111111111111111111111112"⟩⟩ =
      some ⟨⟨0⟩, parseJsNumber "abc", ⟨1⟩⟩ ∧
    (postHelper ⟨some "blockhash"⟩
        ⟨some "11111111111111111111111111111111", some "abc",
         some ⟨some "11111111111111111111111111111112"⟩⟩).2 =
      (prepareTransaction ⟨some "blockhash"⟩ ⟨1⟩ ⟨0⟩ (parseJsNumber "abc")).2 ∧
    (postHelper ⟨some "blockhash"⟩
        ⟨some "11111111111111111111111111111111", some "abc",
         some ⟨some "11111111111111111111111111111112"⟩⟩).2.head? =
      some .buildTransferInstruction :=
  c10_helper_no_numeric_check ⟨some "blockhash"⟩
    "11111111111111111111111111111111" "abc" "11111111111111111111111111111112"
    ⟨0⟩ ⟨1⟩ (by decide) (by decide) (by decide)

end TransferSol

namespace TransferSol

/-- An empty amount string also makes `verifyTransferInstruction` reject. -/
theorem verify_empty_amount (rs : String) (b : PostBody) :
    verifyTransferInstruction ⟨some rs, some "", some b⟩ = none := by
  simp [verifyTransferInstruction]

/-- C1 (counterexample): the amount string "0" parses as the number 0, yet in
the guard variants validation rejects the request with the empty 400 and the
construction trace stays empty — the request never reaches transaction
construction. -/
theorem c1_counterexample :
    parseJsNumber "0" = .fin 0 ∧
    (postGuard ⟨some "blockhash"⟩
        ⟨some "11111111111111111111111111111111", some "0",
         some ⟨some "11111111111111111111111111111112"⟩⟩).1 = ⟨400, .empty⟩ ∧
    (postGuard ⟨some "blockhash"⟩
        ⟨some "11111111111111111111111111111111", some "0",
         some ⟨some "11111111111111111111111111111112"⟩⟩).2 = [] := by
  refine ⟨?_, ?_, ?_⟩ <;> decide

/-- C1 (amended): with parsable receiver and payer keys, the treatment of the
numeric amount differs by variant: the plain variant never rejects on the
value (every coerced amount — zero, negative, non-finite included — reaches
construction and 400 is never answered); the helper variant rejects exactly
the missing or empty amount string, passing every other coerced value on; the
guard variants answer the empty 400 exactly when the coerced amount is falsy
(0 or NaN) and reach construction exactly otherwise. -/
theorem c1_amount_validation_by_variant (env : Env) (rs acc : String)
    (amt : Option String) (receiver payer : PubKey)
    (hr : newPublicKey? rs = some receiver) (hp : newPublicKey? acc = some payer) :
    ((postPlain env ⟨some rs, amt, some ⟨some acc⟩⟩).2.head? =
        some .buildTransferInstruction ∧
      ¬ (postPlain env ⟨some rs, amt, some ⟨some acc⟩⟩).1.status = 400) ∧
    ((postHelper env ⟨some rs, amt, some ⟨some acc⟩⟩).2.head? =
        some .buildTransferInstruction ↔ ∃ s, amt = some s ∧ ¬ s = "") ∧
    ((postGuard env ⟨some rs, amt, some ⟨some acc⟩⟩).1.status = 400 ↔
      (jsNumber amt).truthy = false) ∧
    ((postGuard env ⟨some rs, amt, some ⟨some acc⟩⟩).2.head? =
        some .buildTransferInstruction ↔ (jsNumber amt).truthy = true) := by
  have hrs : rs ≠ "" := by
    rintro rfl
    rw [newPublicKey?_empty] at hr
    cases hr
  have hacc : acc ≠ "" := by
    rintro rfl
    rw [newPublicKey?_empty] at hp
    cases hp
  refine ⟨⟨?_, ?_⟩, ?_, ?_, ?_⟩
  · rw [postPlain_parsed env rs acc amt receiver payer hr hp]
    rcases hpre : prepareTransaction env payer receiver (jsNumber amt) with ⟨otx, evs⟩
    have hh := prepare_trace_head env payer receiver (jsNumber amt)
    rw [hpre] at hh
    cases otx <;> simpa using hh
  · intro hc
    rcases postPlain_shape env ⟨some rs, amt, some ⟨some acc⟩⟩ with h | h
    · rw [hc] at h
      exact absurd h (by decide)
    · rw [h] at hc
      exact absurd hc (by decide)
  · rcases amt with _ | s
    · simp [postHelper, verify_missing_amount]
    · by_cases hs : s = ""
      · subst hs
        simp [postHelper, verify_empty_amount]
      · have hv := verify_success rs s acc receiver payer hrs hs hacc hr hp
        have htrace : (postHelper env ⟨some rs, some s, some ⟨some acc⟩⟩).2 =
            (prepareTransaction env payer receiver (parseJsNumber s)).2 := by
          unfold postHelper
          rcases hpre : prepareTransaction env payer receiver (parseJsNumber s) with
            ⟨otx, evs⟩
          cases otx <;> simp [hv, hpre]
        rw [htrace]
        simp [prepare_trace_head, hs]
  · rw [postGuard_parsed env rs acc amt receiver payer hr hp]
    cases htr : (jsNumber amt).truthy
    · simp [htr]
    · rcases hpre : prepareTransaction env payer receiver (jsNumber amt) with ⟨otx, evs⟩
      cases otx <;> simp [htr, hpre, internalServerError]
  · rw [postGuard_parsed env rs acc amt receiver payer hr hp]
    cases htr : (jsNumber amt).truthy
    · simp [htr]
    · rcases hpre : prepareTransaction env payer receiver (jsNumber amt) with ⟨otx, evs⟩
      have hh := prepare_trace_head env payer receiver (jsNumber amt)
      rw [hpre] at hh
      cases otx <;> simp [htr, hpre] <;> simpa using hh

/-- C1 (witness): the negative amount "-5" with valid keys passes every
variant's validation and reaches construction. -/
theorem c1_witness :
    ((postPlain ⟨some "blockhash"⟩
        ⟨some "11111111111111111111111111111111", some "-5",
         some ⟨some "11111111111111111111111111111112"⟩⟩).2.head? =
        some .buildTransferInstruction ∧
      ¬ (postPlain ⟨some "blockhash"⟩
        ⟨some "11111111111111111111111111111111", some "-5",
         some ⟨some "11111111111111111111111111111112"⟩⟩).1.status = 400) ∧
    ((postHelper ⟨some "blockhash"⟩
        ⟨some "11111111111111111111111111111111", some "-5",
         some ⟨some "11111111111111111111111111111112"⟩⟩).2.head? =
        some .buildTransferInstruction ↔ ∃ s, (some "-5" : Option String) = some s ∧ ¬ s = "") ∧
    ((postGuard ⟨some "blockhash"⟩
        ⟨some "11111111111111111111111111111111", some "-5",
         some ⟨some "11111111111111111111111111111112"⟩⟩).1.status = 400 ↔
      (jsNumber (some "-5")).truthy = false) ∧
    ((postGuard ⟨some "blockhash"⟩
        ⟨some "11111111111111111111111111111111", some "-5",
         some ⟨some "11111111111111111111111111111112"⟩⟩).2.head? =
        some .buildTransferInstruction ↔ (jsNumber (some "-5")).truthy = true) :=
  c1_amount_validation_by_variant ⟨some "blockhash"⟩
    "11111111111111111111111111111111" "11111111111111111111111111111112"
    (some "-5") ⟨0⟩ ⟨1⟩ (by decide) (by decide)

end TransferSol
